import Mathlib

/-!
Verification development for the QueryPilot self-correction pipeline.

The Python sources are embedded shallowly:
* `backend/app/agents/critic.py`      → `CriticAgent.validate` and its four layers
* `backend/app/agents/executor.py`    → `ErrorClassifier.classify`
* `backend/app/agents/self_correction.py` → state, nodes, routing, `auto_fix_columns`,
  `normalize_sql`, and a fuel-indexed runner for the LangGraph loop
* `backend/app/agents/correction_strategies.py` → prompt builders and the
  `NON_RETRYABLE_ERRORS` constant.

External collaborators (the LLM generation service, the schema linker, the
database execution call, the `sqlparse` library and `difflib.get_close_matches`)
are abstracted as oracle functions carried by an `Env` record; everything else
is translated from the source.  Python floats are modelled by `ℚ`; Python
dicts by insertion-ordered association lists; Python sets by insertion-ordered
duplicate-free lists (no proved property depends on set iteration order).
-/

set_option maxRecDepth 10000

namespace QueryPilot

/-! ## Character classes and basic string helpers (Python `str` / `re` semantics) -/

/-- Python regex `\w`: letters, digits, underscore (ASCII fragment suffices for SQL text). -/
def isWordChar (c : Char) : Bool :=
  c.isAlphanum || c == '_'

/-- Python regex `\s` and `str.split()` whitespace: space, tab, newline, CR, VT, FF. -/
def isSpaceChar (c : Char) : Bool :=
  c == ' ' || c == '\t' || c == '\n' || c == '\r' || c == '\u000B' || c == '\u000C'

def toLowerL (l : List Char) : List Char := l.map Char.toLower

def toUpperL (l : List Char) : List Char := l.map Char.toUpper

/-- Python `str.lower()`. -/
def lowerS (s : String) : String := String.mk (toLowerL s.data)

/-- Python `str.upper()`. -/
def upperS (s : String) : String := String.mk (toUpperL s.data)

/-- `prefMatch p l` : the literal `p` matches at the head of `l`. -/
def prefMatch : List Char → List Char → Bool
  | [], _ => true
  | _ :: _, [] => false
  | p :: ps, c :: cs => p == c && prefMatch ps cs

/-- `prefMatchCI p l` : case-insensitive literal match at the head of `l`
(`p` is given in lower case). -/
def prefMatchCI : List Char → List Char → Bool
  | [], _ => true
  | _ :: _, [] => false
  | p :: ps, c :: cs => p == c.toLower && prefMatchCI ps cs

/-- Python `pat in text` (substring containment) on char lists. -/
def containsL (pat : List Char) : List Char → Bool
  | [] => pat.isEmpty
  | c :: rest => prefMatch pat (c :: rest) || containsL pat rest

/-- Python `pat in s` for strings. -/
def containsS (s pat : String) : Bool := containsL pat.data s.data

/-- Python `c in s` for a single char. -/
def containsChar (c : Char) (l : List Char) : Bool := l.contains c

/-- Python `s.count(c)` for a single char. -/
def countChar (c : Char) (l : List Char) : Nat := (l.filter (fun x => x == c)).length

/-- Python `str.strip()` on char lists. -/
def stripL (l : List Char) : List Char :=
  ((l.dropWhile isSpaceChar).reverse.dropWhile isSpaceChar).reverse

/-- Python `str.strip()`. -/
def pyStrip (s : String) : String := String.mk (stripL s.data)

/-- Python `str.strip(chars)` on char lists. -/
def stripCharsL (cs : List Char) (l : List Char) : List Char :=
  ((l.dropWhile (fun c => cs.contains c)).reverse.dropWhile (fun c => cs.contains c)).reverse

/-- Python `str.split()` (split on whitespace runs, dropping empty pieces). -/
def splitWsAux (acc : List Char) : List Char → List (List Char)
  | [] => if acc.isEmpty then [] else [acc.reverse]
  | c :: rest =>
    if isSpaceChar c then
      if acc.isEmpty then splitWsAux [] rest else acc.reverse :: splitWsAux [] rest
    else splitWsAux (c :: acc) rest

def splitWs (l : List Char) : List (List Char) := splitWsAux [] l

/-- Python `str.split(sep)` for a one-character separator (keeps empty pieces). -/
def splitOnChar (sep : Char) : List Char → List (List Char)
  | [] => [[]]
  | c :: rest =>
    if c == sep then [] :: splitOnChar sep rest
    else
      match splitOnChar sep rest with
      | [] => [[c]]
      | h :: t => (c :: h) :: t

/-- The part of `l` before the first occurrence of `pat` (all of `l` if absent):
Python `l.split(pat)[0]`. -/
def beforeSubstr (pat : List Char) : List Char → List Char
  | [] => []
  | c :: rest =>
    if prefMatch pat (c :: rest) && !pat.isEmpty then []
    else c :: beforeSubstr pat rest

/-- First-occurrence-order deduplication (model of building a Python `set`). -/
def dedupAux (seen : List String) : List String → List String
  | [] => []
  | s :: rest => if seen.contains s then dedupAux seen rest else s :: dedupAux (s :: seen) rest

def dedupStr (l : List String) : List String := dedupAux [] l

/-- Last element with a default: Python `l[-1]` (graph invariants keep the list nonempty). -/
def lastD (l : List String) (d : String) : String :=
  match l.reverse with
  | [] => d
  | x :: _ => x

/-- The two most recent entries: Python `(l[-2], l[-1])` when `len(l) >= 2`. -/
def lastTwo (l : List String) : Option (String × String) :=
  match l.reverse with
  | a :: b :: _ => some (b, a)
  | _ => none

/-! ## `normalize_sql` (self_correction.py, lines 77-99) -/

/-- Remainder of the current line: stops *at* the newline, which is kept
(regex `--.*$` under `re.MULTILINE` does not consume the newline). -/
def skipToEol : List Char → List Char
  | [] => []
  | c :: rest => if c == '\n' then c :: rest else skipToEol rest

/-- `re.sub(r'--.*$', '', sql, flags=re.MULTILINE)`.  The fuel argument only
drives structural recursion: every step consumes at least one character, so
`fuel = l.length` (as the wrapper passes) never runs out. -/
def stripLineCommentsF : Nat → List Char → List Char
  | 0, l => l
  | _ + 1, [] => []
  | fuel + 1, '-' :: '-' :: rest => stripLineCommentsF fuel (skipToEol rest)
  | fuel + 1, c :: rest => c :: stripLineCommentsF fuel rest

def stripLineComments (l : List Char) : List Char := stripLineCommentsF l.length l

/-- Scan for the closing `*/` of a block comment; returns the remainder after it. -/
def findBlockClose : List Char → Option (List Char)
  | [] => none
  | c :: rest =>
    if prefMatch ['*', '/'] (c :: rest) then some (rest.drop 1)
    else findBlockClose rest

/-- `re.sub(r'/\*.*?\*/', '', sql, flags=re.DOTALL)`: non-greedy, so each `/*`
is closed by the nearest `*/`; an unclosed `/*` is left verbatim.  Fuel as in
`stripLineCommentsF`. -/
def stripBlockCommentsF : Nat → List Char → List Char
  | 0, l => l
  | _ + 1, [] => []
  | fuel + 1, c :: rest =>
    if prefMatch ['/', '*'] (c :: rest) then
      match findBlockClose (rest.drop 1) with
      | some rem => stripBlockCommentsF fuel rem
      | none => c :: rest
    else c :: stripBlockCommentsF fuel rest

def stripBlockComments (l : List Char) : List Char := stripBlockCommentsF l.length l

/-- `normalize_sql` (self_correction.py): strip line and block comments, strip,
lowercase, collapse all whitespace runs to single spaces. -/
def normalize_sql (sql : String) : String :=
  let n1 := stripLineComments sql.data
  let n2 := stripBlockComments n1
  String.mk (List.intercalate [' '] (splitWs (toLowerL (stripL n2))))

/-! ## `ErrorClassifier` (executor.py, lines 136-260) -/

/-- Locate the literal `p` scanning forward without crossing a newline
(the gap left by `.*` in a Python regex without `re.DOTALL`); returns the
remainder after the match. -/
def gapFind (p : List Char) : List Char → Option (List Char)
  | [] => if p.isEmpty then some [] else none
  | c :: rest =>
    if prefMatch p (c :: rest) then some ((c :: rest).drop p.length)
    else if c == '\n' then none
    else gapFind p rest

/-- Match the remaining literals of a pattern `L₁.*L₂.*…`, each gap newline-free. -/
def afterGaps : List (List Char) → List Char → Bool
  | [], _ => true
  | p :: ps, l =>
    match gapFind p l with
    | some rem => afterGaps ps rem
    | none => false

def regexSearchAux (p : List Char) (ps : List (List Char)) : List Char → Bool
  | [] => prefMatch p [] && afterGaps ps []
  | c :: rest =>
    (prefMatch p (c :: rest) && afterGaps ps ((c :: rest).drop p.length)) ||
      regexSearchAux p ps rest

/-- `re.search` for patterns of the shape `L₁.*L₂.*…*Lₙ` with literal pieces `Lᵢ`
(the only regex shapes used by `ErrorClassifier`). -/
def regexSearch (pats : List String) (msg : List Char) : Bool :=
  match pats.map String.data with
  | [] => true
  | p :: ps => regexSearchAux p ps msg

/-- executor.py `ErrorCategory` enum. -/
inductive ErrorCategory where
  | column_not_found
  | table_not_found
  | syntax_error
  | type_mismatch
  | join_error
  | aggregation_error
  | timeout
  | permission_denied
  | connection_error
  | unknown
deriving DecidableEq

/-- The `.value` string of each `ErrorCategory` member. -/
def categoryValue : ErrorCategory → String
  | .column_not_found => "column_not_found"
  | .table_not_found => "table_not_found"
  | .syntax_error => "syntax_error"
  | .type_mismatch => "type_mismatch"
  | .join_error => "join_error"
  | .aggregation_error => "aggregation_error"
  | .timeout => "timeout"
  | .permission_denied => "permission_denied"
  | .connection_error => "connection_error"
  | .unknown => "unknown"

def checkTimeout (m : List Char) : Bool :=
  ["canceling statement due to statement timeout", "query_timeout",
   "execution timeout", "statement timeout"].any (fun p => containsL p.data m)

def checkConnection (m : List Char) : Bool :=
  ["could not connect to server", "connection refused", "connection reset",
   "connection timed out", "server closed the connection"].any (fun p => containsL p.data m)

def checkPermission (m : List Char) : Bool :=
  ["permission denied", "must be owner of", "access denied"].any (fun p => containsL p.data m)

/-- `_check_column_not_found`: `column .* does not exist` or
`column .* of relation .* does not exist`. -/
def checkColumnNotFound (m : List Char) : Bool :=
  regexSearch ["column ", " does not exist"] m ||
    regexSearch ["column ", " of relation ", " does not exist"] m

/-- `_check_table_not_found`: `relation .* does not exist` or `table .* does not exist`. -/
def checkTableNotFound (m : List Char) : Bool :=
  regexSearch ["relation ", " does not exist"] m ||
    regexSearch ["table ", " does not exist"] m

def checkAggregationError (m : List Char) : Bool :=
  containsL "must appear in the group by clause".data m ||
    containsL "aggregate functions are not allowed".data m ||
    regexSearch ["column ", " must appear in the group by"] m

def checkJoinError (m : List Char) : Bool :=
  regexSearch ["column reference ", " is ambiguous"] m ||
    containsL "missing from-clause entry".data m ||
    containsL "ambiguous column".data m

def checkTypeMismatch (m : List Char) : Bool :=
  ["cannot cast type", "invalid input syntax for type", "operator does not exist",
   "type mismatch"].any (fun p => containsL p.data m)

def checkSyntaxError (m : List Char) : Bool :=
  ["syntax error at or near", "syntax error", "invalid syntax"].any
    (fun p => containsL p.data m)

/-- `ErrorClassifier.classify` (executor.py lines 143-183): the error text is
lowercased and the categories are tried in a fixed priority order, first match
wins. -/
def ErrorClassifier.classify (errMsg : String) : ErrorCategory :=
  let m := toLowerL errMsg.data
  if checkTimeout m then .timeout
  else if checkConnection m then .connection_error
  else if checkPermission m then .permission_denied
  else if checkColumnNotFound m then .column_not_found
  else if checkTableNotFound m then .table_not_found
  else if checkAggregationError m then .aggregation_error
  else if checkJoinError m then .join_error
  else if checkTypeMismatch m then .type_mismatch
  else if checkSyntaxError m then .syntax_error
  else .unknown

/-! ## Regex-scanner helpers shared by critic.py and self_correction.py

Each Python `re.findall`/`re.search` call used by the sources is hand-compiled
to a scanner with the same leftmost, non-overlapping semantics. -/

/-- `re.findall(r'KW\s+(\w+)', text)` for a nonempty literal keyword `k :: ks`.
Fuel-driven structural recursion; every step consumes at least one character,
so the wrapper's `fuel = l.length` never runs out. -/
def scanKwWordAux (k : Char) (ks : List Char) : Nat → List Char → List (List Char)
  | 0, _ => []
  | _ + 1, [] => []
  | fuel + 1, c :: rest =>
    if prefMatch (k :: ks) (c :: rest) then
      if ((rest.drop ks.length).takeWhile isSpaceChar).isEmpty ||
          (((rest.drop ks.length).dropWhile isSpaceChar).takeWhile isWordChar).isEmpty then
        scanKwWordAux k ks fuel rest
      else
        ((rest.drop ks.length).dropWhile isSpaceChar).takeWhile isWordChar ::
          scanKwWordAux k ks fuel
            (((rest.drop ks.length).dropWhile isSpaceChar).dropWhile isWordChar)
    else scanKwWordAux k ks fuel rest

def scanKwWord (kw : String) (l : List Char) : List (List Char) :=
  match kw.data with
  | [] => []
  | k :: ks => scanKwWordAux k ks l.length l

/-- `re.findall(r'WITH\s+(\w+)\s+AS', text)` (critic.py CTE extraction).
Fuel as in `scanKwWordAux`. -/
def scanWithAsF : Nat → List Char → List (List Char)
  | 0, _ => []
  | _ + 1, [] => []
  | fuel + 1, c :: rest =>
    if prefMatch "WITH".data (c :: rest) then
      if ((rest.drop 3).takeWhile isSpaceChar).isEmpty ||
          (((rest.drop 3).dropWhile isSpaceChar).takeWhile isWordChar).isEmpty ||
          (((((rest.drop 3).dropWhile isSpaceChar).dropWhile isWordChar)).takeWhile isSpaceChar).isEmpty ||
          !prefMatch "AS".data
            ((((rest.drop 3).dropWhile isSpaceChar).dropWhile isWordChar).dropWhile isSpaceChar) then
        scanWithAsF fuel rest
      else
        (((rest.drop 3).dropWhile isSpaceChar).takeWhile isWordChar) ::
          scanWithAsF fuel
            (((((rest.drop 3).dropWhile isSpaceChar).dropWhile isWordChar).dropWhile isSpaceChar).drop 2)
    else scanWithAsF fuel rest

def scanWithAs (l : List Char) : List (List Char) := scanWithAsF l.length l

/-- `re.findall(r'(\w+)\.(\w+)', sql)` (critic.py pattern 1, auto_fix_columns).
Fuel as in `scanKwWordAux`. -/
def qualifiedRefsAux : Nat → List Char → List (String × String)
  | 0, _ => []
  | _ + 1, [] => []
  | fuel + 1, c :: rest =>
    if isWordChar c then
      match rest.dropWhile isWordChar with
      | '.' :: r2 =>
        if (r2.takeWhile isWordChar).isEmpty then qualifiedRefsAux fuel r2
        else
          (String.mk (c :: rest.takeWhile isWordChar), String.mk (r2.takeWhile isWordChar)) ::
            qualifiedRefsAux fuel (r2.dropWhile isWordChar)
      | _ => qualifiedRefsAux fuel (rest.dropWhile isWordChar)
    else qualifiedRefsAux fuel rest

def qualifiedRefs (sql : String) : List (String × String) :=
  qualifiedRefsAux sql.data.length sql.data

/-- `re.findall(r'\b(\w+)\b', text)`: the maximal word-character runs.
Fuel as in `scanKwWordAux`. -/
def wordRunsF : Nat → List Char → List String
  | 0, _ => []
  | _ + 1, [] => []
  | fuel + 1, c :: rest =>
    if isWordChar c then
      String.mk (c :: rest.takeWhile isWordChar) :: wordRunsF fuel (rest.dropWhile isWordChar)
    else wordRunsF fuel rest

def wordRuns (l : List Char) : List String := wordRunsF l.length l

/-- The lazy `[^)]*?,\s*([A-Za-z_][\w\.]*)\)` tail of critic.py's function-argument
regex: scan forward (never across `)`), and at each `,` try to complete with
optional spaces, a captured token and an immediate `)`. -/
def tryArgs : List Char → Option (String × List Char)
  | [] => none
  | c :: rest =>
    if c == ')' then none
    else if c == ',' then
      match h : rest.dropWhile isSpaceChar with
      | c0 :: r2 =>
        if c0.isAlpha || c0 == '_' then
          match h2 : r2.dropWhile (fun ch => isWordChar ch || ch == '.') with
          | ')' :: r4 =>
            some (String.mk (c0 :: r2.takeWhile (fun ch => isWordChar ch || ch == '.')), r4)
          | _ => tryArgs rest
        else tryArgs rest
      | [] => tryArgs rest
    else tryArgs rest

/-- `re.findall(r"\b\w+\s*\([^)]*?,\s*([A-Za-z_][\w\.]*)\)", sql, re.IGNORECASE)`:
word-boundary tracked by `prevWord` (whether the previous char was a word char). -/
def scanFuncArgsAux : Nat → Bool → List Char → List String
  | 0, _, _ => []
  | _ + 1, _, [] => []
  | fuel + 1, prevWord, c :: rest =>
    if !prevWord && isWordChar c then
      match (rest.dropWhile isWordChar).dropWhile isSpaceChar with
      | '(' :: inside =>
        match tryArgs inside with
        | some (cap, rem) => cap :: scanFuncArgsAux fuel false rem
        | none => scanFuncArgsAux fuel true rest
      | _ => scanFuncArgsAux fuel true rest
    else scanFuncArgsAux fuel (isWordChar c) rest

def scanFuncArgs (sql : String) : List String := scanFuncArgsAux sql.data.length false sql.data

/-- The lazy group search of `re.search(r'SELECT\s+(.*?)\s+FROM', sql,
re.IGNORECASE | re.DOTALL)`: grow the group one char at a time until a
whitespace run followed by `FROM` is found. -/
def groupSearch (acc : List Char) : List Char → Option (List Char)
  | [] => none
  | c :: rest =>
    if isSpaceChar c && prefMatchCI "from".data (rest.dropWhile isSpaceChar) then
      some acc.reverse
    else groupSearch (c :: acc) rest

/-- Backtracking over how much of the whitespace run after `SELECT` the first
`\s+` keeps (greedy: largest first); the group absorbs the remainder. -/
def wsBacktrack : Nat → List Char → Option (List Char)
  | 0, _ => none
  | k + 1, after =>
    match groupSearch [] (after.drop (k + 1)) with
    | some g => some g
    | none => wsBacktrack k after

/-- `re.search(r'SELECT\s+(.*?)\s+FROM', sql, re.IGNORECASE | re.DOTALL)`,
returning the captured group. -/
def selectSearch : List Char → Option (List Char)
  | [] => none
  | c :: rest =>
    if prefMatchCI "select".data (c :: rest) then
      if ((rest.drop 5).takeWhile isSpaceChar).length == 0 then selectSearch rest
      else
        match wsBacktrack ((rest.drop 5).takeWhile isSpaceChar).length (rest.drop 5) with
        | some g => some g
        | none => selectSearch rest
    else selectSearch rest

/-- One match attempt of `re.findall(r'(?:FROM|JOIN)\s+(\w+)\s+(?:AS\s+)?(\w+)',
sql, re.IGNORECASE)` at the current position (critic.py alias extraction).
The optional `AS\s+` is tried greedily and backtracked (second capture `AS`)
when no word follows it.  Returns the captured pair and the remainder after
the whole match. -/
def aliasTryAt (l : List Char) : Option ((String × String) × List Char) :=
  if prefMatchCI ['f', 'r', 'o', 'm'] l || prefMatchCI ['j', 'o', 'i', 'n'] l then
    let a0 := l.drop 4
    let r1 := a0.dropWhile isSpaceChar
    let w1 := r1.takeWhile isWordChar
    let r2 := r1.dropWhile isWordChar
    let r3 := r2.dropWhile isSpaceChar
    if (a0.takeWhile isSpaceChar).isEmpty || w1.isEmpty ||
        (r2.takeWhile isSpaceChar).isEmpty then none
    else
      match r3 with
      | a :: s :: r4 =>
        if a.toLower == 'a' && s.toLower == 's' &&
            (match r4 with | d :: _ => isSpaceChar d | [] => false) then
          let r5 := r4.dropWhile isSpaceChar
          let w2 := r5.takeWhile isWordChar
          if w2.isEmpty then some ((String.mk w1, String.mk [a, s]), r4)
          else some ((String.mk w1, String.mk w2), r5.dropWhile isWordChar)
        else
          let w2 := r3.takeWhile isWordChar
          if w2.isEmpty then none
          else some ((String.mk w1, String.mk w2), r3.dropWhile isWordChar)
      | _ =>
        let w2 := r3.takeWhile isWordChar
        if w2.isEmpty then none
        else some ((String.mk w1, String.mk w2), r3.dropWhile isWordChar)
  else none

/-- `re.findall(r'(?:FROM|JOIN)\s+(\w+)\s+(?:AS\s+)?(\w+)', sql, re.IGNORECASE)`. -/
def scanAliasesAux : Nat → List Char → List (String × String)
  | 0, _ => []
  | _ + 1, [] => []
  | fuel + 1, c :: rest =>
    match aliasTryAt (c :: rest) with
    | some (p, rem) => p :: scanAliasesAux fuel rem
    | none => scanAliasesAux fuel rest

def scanAliases (sql : String) : List (String × String) :=
  scanAliasesAux sql.data.length sql.data

/-! ## Kernel-computable rational arithmetic

Core `Rat.sub`/`Rat.mul` are `@[irreducible]`, which blocks `rfl`/`decide`
evaluation of concrete runs.  `qSub`/`qMul` compute the same values through
`mkRat` (which does reduce); the bridge lemmas identify them with `-` and `*`
so symbolic proofs can use ordinary arithmetic. -/

def qSub (a b : ℚ) : ℚ := mkRat (a.num * b.den - b.num * a.den) (a.den * b.den)

def qMul (a b : ℚ) : ℚ := mkRat (a.num * b.num) (a.den * b.den)

theorem qSub_eq (a b : ℚ) : qSub a b = a - b := by
  unfold qSub
  rw [Rat.mkRat_eq_div]
  have h1 : ((a.den : ℚ)) ≠ 0 := by
    exact_mod_cast Rat.den_ne_zero a
  have h2 : ((b.den : ℚ)) ≠ 0 := by
    exact_mod_cast Rat.den_ne_zero b
  conv_rhs => rw [← Rat.num_div_den a, ← Rat.num_div_den b]
  rw [div_sub_div _ _ h1 h2]
  push_cast
  ring_nf

theorem qMul_eq (a b : ℚ) : qMul a b = a * b := by
  unfold qMul
  rw [Rat.mkRat_eq_div]
  conv_rhs => rw [← Rat.num_div_den a, ← Rat.num_div_den b]
  rw [div_mul_div_comm]
  push_cast
  ring_nf

/-! ## Critic data model (critic.py) -/

/-- One table of the filtered schema: `{columns: {name: type}, primary_keys: [...],
foreign_keys: {...}}`.  Dicts are modelled as insertion-ordered association lists. -/
structure TableInfo where
  columns : List (String × String)
  primary_keys : List String
  foreign_keys : List (String × String)
deriving DecidableEq

/-- The filtered schema passed around by the pipeline: table name → TableInfo. -/
abbrev Schema := List (String × TableInfo)

/-- One validation layer's `{'valid': bool, 'issues': [...]}` dict. -/
structure LayerResult where
  valid : Bool
  issues : List String
deriving DecidableEq

/-- Association-list lookup (Python `d.get(k)` / `d[k]`). -/
def alookup {α : Type} (r : List (String × α)) (k : String) : Option α :=
  (r.find? (fun p => p.1 == k)).map Prod.snd

/-- Python `', '.join(l)`. -/
def commaJoin (l : List String) : String := String.intercalate ", " l

/-- `CriticAgent._extract_table_names` (critic.py lines 275-301): `FROM`/`JOIN`
targets and CTE names from the uppercased SQL, lowercased into a set. -/
def extractTableNames (sql : String) : List String :=
  let up := toUpperL sql.data
  dedupStr (((scanKwWord "FROM" up ++ scanKwWord "JOIN" up) ++ scanWithAs up).map
    (fun w => lowerS (String.mk w)))

/-! ### `CriticAgent._extract_column_references` (critic.py lines 304-409) -/

/-- References dict `table → set of columns` as an insertion-ordered structure. -/
abbrev Refs := List (String × List String)

/-- `references[t].add(c)`, creating the key if needed (set semantics: no duplicates). -/
def addRef (r : Refs) (t c : String) : Refs :=
  match r with
  | [] => [(t, [c])]
  | (k, cols) :: rest =>
    if k == t then (k, if cols.contains c then cols else cols ++ [c]) :: rest
    else (k, cols) :: addRef rest t c

/-- `if t not in references: references[t] = set()`. -/
def ensureKey (r : Refs) (t : String) : Refs :=
  match r with
  | [] => [(t, [])]
  | (k, cols) :: rest => if k == t then (k, cols) :: rest else (k, cols) :: ensureKey rest t

/-- Python dict assignment `m[k] = v` (later assignments win). -/
def setAssoc (m : List (String × String)) (k v : String) : List (String × String) :=
  match m with
  | [] => [(k, v)]
  | (k0, v0) :: rest => if k0 == k then (k0, v) :: rest else (k0, v0) :: setAssoc rest k v

/-- `resolved.setdefault(t, set()).update(cols)`. -/
def mergeRef (r : Refs) (t : String) (cols : List String) : Refs :=
  cols.foldl (fun acc c => addRef acc t c) (ensureKey r t)

/-- Python `s.split('.', 1)`. -/
def splitFirstDot : List Char → List Char × List Char
  | [] => ([], [])
  | c :: rest =>
    if c == '.' then ([], rest)
    else
      let (a, b) := splitFirstDot rest
      (c :: a, b)

def skipKeywordsList : List String :=
  ["AS", "COUNT", "SUM", "AVG", "MAX", "MIN", "DISTINCT", "*"]

/-- The bare-column loop over the comma-split select list (critic.py lines 371-386).
An empty piece makes `col.split()[0]` raise `IndexError`; the surrounding
`try/except` then abandons the rest of the block, keeping the additions made so
far — modelled by returning the accumulator at that point. -/
def bareLoop (t : String) : Refs → List String → Refs
  | r, [] => r
  | r, col :: rest =>
    if containsChar '.' col.data then bareLoop t r rest
    else if skipKeywordsList.any (fun kw => containsS (upperS col) kw) then bareLoop t r rest
    else
      match splitWs col.data with
      | [] => r
      | first :: _ =>
        let colName := stripCharsL "(),".data first
        if !colName.isEmpty && !skipKeywordsList.contains (upperS (String.mk colName)) then
          bareLoop t (addRef r t (lowerS (String.mk colName))) rest
        else bareLoop t r rest

/-- `CriticAgent._extract_column_references`: qualified `table.column` pairs,
non-first function-call arguments, bare select-list columns for single-table
queries, then alias resolution. -/
def extractColumnRefs (sql : String) : Refs :=
  let refs1 := (qualifiedRefs sql).foldl
    (fun r tc => addRef r (lowerS tc.1) (lowerS tc.2)) []
  let fromTables := extractTableNames sql
  let refs2 := (scanFuncArgs sql).foldl
    (fun r col =>
      let c1 := stripL col.data
      let c2 := stripCharsL ") ,".data c1
      let c3 := stripCharsL ['\x22', '\x27'] c2
      if containsChar '.' c3 then
        let tp := (splitFirstDot c3).1
        let cp := (splitFirstDot c3).2
        addRef r (lowerS (String.mk tp)) (lowerS (String.mk cp))
      else
        match fromTables with
        | [t] => addRef r t (lowerS (String.mk c3))
        | _ => r) refs1
  let refs3 :=
    match fromTables with
    | [t] =>
      match selectSearch sql.data with
      | some clause =>
        bareLoop t (ensureKey refs2 t)
          ((splitOnChar ',' clause).map (fun c => pyStrip (String.mk c)))
      | none => refs2
    | _ => refs2
  let aliasMap := (scanAliases sql).foldl
    (fun m p =>
      if lowerS p.1 ≠ lowerS p.2 then setAssoc m (lowerS p.2) (lowerS p.1) else m) []
  refs3.foldl (fun res kv =>
    mergeRef res ((alookup aliasMap kv.1).getD kv.1) kv.2) []

/-! ### The four validation layers (critic.py lines 135-273) -/

/-- `CriticAgent._validate_syntax`.  The `sqlparse` library is an external
dependency and is abstracted by `parserOracle`: `none` means the structural
parser raised no objection (or is absent), `some issue` is the issue string the
sqlparse branch would append.  The empty-SQL check, the SELECT/WITH prefix
check and the parenthesis balance check are translated from the source. -/
def syntaxCheck (parserOracle : String → Option String) (sql : String) : LayerResult :=
  if (stripL sql.data).isEmpty then ⟨false, ["Empty SQL query"]⟩
  else
    let sqlUpper := stripL (toUpperL sql.data)
    if !(prefMatch "SELECT".data sqlUpper || prefMatch "WITH".data sqlUpper) then
      ⟨false, ["SQL must start with SELECT or WITH"]⟩
    else
      match parserOracle sql with
      | some issue => ⟨false, [issue]⟩
      | none =>
        if countChar '(' sql.data ≠ countChar ')' sql.data then
          ⟨false, ["Unmatched parentheses"]⟩
        else ⟨true, []⟩

/-- `CriticAgent._validate_schema` (critic.py lines 181-220). -/
def schemaCheck (sql : String) (schema : Schema) : LayerResult :=
  if schema.isEmpty then ⟨false, ["No schema provided for validation"]⟩
  else
    let schemaTables := schema.map Prod.fst
    let tIssues := ((extractTableNames sql).filter (fun t => !schemaTables.contains t)).map
      (fun t => "Table \x27" ++ t ++ "\x27 not in schema (available: " ++
        commaJoin schemaTables ++ ")")
    let cIssues := (extractColumnRefs sql).foldl (fun acc kv =>
      match alookup schema kv.1 with
      | none => acc
      | some info =>
        let schemaCols := info.columns.map Prod.fst
        acc ++ (kv.2.filter (fun col => !schemaCols.contains col && col ≠ "*")).map
          (fun col => "Column \x27" ++ col ++ "\x27 not in table \x27" ++ kv.1 ++
            "\x27 (available: " ++ commaJoin (schemaCols.take 5) ++ "...)")) []
    ⟨(tIssues ++ cIssues).isEmpty, tIssues ++ cIssues⟩

def unsafeKeywords : List String :=
  ["DROP", "DELETE", "ALTER", "TRUNCATE", "UPDATE", "INSERT", "CREATE", "REPLACE"]

/-- `CriticAgent._validate_safety` (critic.py lines 222-236): case-insensitive
substring scan for destructive keywords. -/
def safetyCheck (sql : String) : LayerResult :=
  let issues := (unsafeKeywords.filter (fun kw => containsS (upperS sql) kw)).map
    (fun kw => "Unsafe operation detected: " ++ kw)
  ⟨issues.isEmpty, issues⟩

def aggregationFuncs : List String := ["COUNT(", "SUM(", "AVG(", "MAX(", "MIN("]

/-- `CriticAgent._validate_semantics` (critic.py lines 238-273). -/
def semanticCheck (sql : String) : LayerResult :=
  let up := upperS sql
  let i1 :=
    if (extractTableNames sql).length > 1 && !containsS up "JOIN" then
      ["Multiple tables detected but no JOIN found (possible cartesian product)"]
    else []
  let i2 :=
    if (aggregationFuncs.any (fun f => containsS up f)) && !containsS up "GROUP BY" then
      if containsChar ',' (beforeSubstr "FROM".data up.data) then
        ["Aggregation with multiple columns but no GROUP BY"]
      else []
    else []
  ⟨(i1 ++ i2).isEmpty, i1 ++ i2⟩

/-- The `ValidationResult` dataclass; `layer_results` is modelled as four
named fields. -/
structure ValidationResult where
  confidence : ℚ
  is_valid : Bool
  issues : List String
  layer_syntax : LayerResult
  layer_schema : LayerResult
  layer_safety : LayerResult
  layer_semantic : LayerResult
deriving DecidableEq

/-- `CriticAgent.validate` (critic.py lines 70-133).  Confidence starts at 1.0;
syntax failure subtracts 0.6; each schema issue subtracts 0.4; a safety
violation hard-overrides the running value to 0.0; each semantic issue
subtracts 0.2; the result is clamped to [0, 1].  Validity requires the
threshold and strict positivity.  The float arithmetic is modelled over `ℚ`
(all penalties are exact decimals).  The `question` argument is used only for
logging in the source. -/
def CriticAgent.validate (parserOracle : String → Option String) (threshold : ℚ)
    (generated_sql : String) (filtered_schema : Schema) (_question : String) :
    ValidationResult :=
  let syntaxR := syntaxCheck parserOracle generated_sql
  let c1 : ℚ := if syntaxR.valid then 1 else qSub 1 (mkRat 6 10)
  let i1 := if syntaxR.valid then [] else [] ++ syntaxR.issues
  let schemaR := schemaCheck generated_sql filtered_schema
  let c2 := if schemaR.valid then c1 else qSub c1 (qMul (mkRat 4 10) (schemaR.issues.length : ℚ))
  let i2 := if schemaR.valid then i1 else i1 ++ schemaR.issues
  let safetyR := safetyCheck generated_sql
  let c3 := if safetyR.valid then c2 else 0
  let i3 := if safetyR.valid then i2 else i2 ++ safetyR.issues
  let semanticR := semanticCheck generated_sql
  let c4 := if semanticR.valid then c3 else qSub c3 (qMul (mkRat 2 10) (semanticR.issues.length : ℚ))
  let i4 := if semanticR.valid then i3 else i3 ++ semanticR.issues
  let confidence := max 0 (min c4 1)
  ⟨confidence, decide (threshold ≤ confidence) && decide (0 < confidence), i4,
    syntaxR, schemaR, safetyR, semanticR⟩

/-! ## `auto_fix_columns` (self_correction.py, lines 899-984) -/

/-- `\b` after a match: the next char must not be a word char (or end of input). -/
def noWordHead : List Char → Bool
  | [] => true
  | d :: _ => !isWordChar d

/-- `re.sub(rf'\b{table}\.{column}\b', repl, sql, flags=re.IGNORECASE)`:
replace every word-bounded case-insensitive occurrence of the (nonempty,
word-character) pattern `p :: ps`.  The matched text ends in a word char, so
after a replacement the boundary flag is word-like. -/
def subAllAux (p : Char) (ps : List Char) (repl : List Char) :
    Nat → Bool → List Char → List Char
  | 0, _, l => l
  | _ + 1, _, [] => []
  | fuel + 1, prevWord, c :: rest =>
    if !prevWord && prefMatchCI (p :: ps) (c :: rest) && noWordHead (rest.drop ps.length) then
      repl ++ subAllAux p ps repl fuel true (rest.drop ps.length)
    else c :: subAllAux p ps repl fuel (isWordChar c) rest

/-- `re.sub(rf'\b{table}\.{column}\b', f"{table}.{correct}", sql, re.IGNORECASE)`. -/
def subAllQual (sql : String) (table column correct : String) : String :=
  match toLowerL (table.data ++ '.' :: column.data) with
  | [] => sql
  | p :: ps =>
    String.mk (subAllAux p ps (table.data ++ '.' :: correct.data) sql.data.length false sql.data)

/-- `re.sub(rf'\b{word}\b', repl, sql, flags=re.IGNORECASE, count=1)`:
only the first occurrence is replaced. -/
def subFirstAux (p : Char) (ps : List Char) (repl : List Char) (prevWord : Bool) :
    List Char → List Char
  | [] => []
  | c :: rest =>
    if !prevWord && prefMatchCI (p :: ps) (c :: rest) && noWordHead (rest.drop ps.length) then
      repl ++ rest.drop ps.length
    else c :: subFirstAux p ps repl (isWordChar c) rest

def subBareFirst (sql : String) (word repl : String) : String :=
  match toLowerL word.data with
  | [] => sql
  | p :: ps => String.mk (subFirstAux p ps repl.data false sql.data)

/-- `difflib.get_close_matches(word, candidates, n=1, cutoff)` is an external
library call, abstracted as an oracle returning the best candidate above the
cutoff, if any. -/
abbrev CloseMatchFn := String → List String → ℚ → Option String

def sqlKeywordsList : List String :=
  ["select", "from", "where", "and", "or", "order", "by", "limit",
   "group", "having", "join", "on", "as", "with", "case", "when",
   "then", "else", "end", "distinct", "count", "sum", "avg", "max", "min"]

/-- One Python dict assignment `d[k] = v`: a key already present keeps its
position but takes the new value (last assignment wins); a new key is appended. -/
def dictInsert (m : List (String × List String)) (k : String) (v : List String) :
    List (String × List String) :=
  if m.any (fun p => p.1 == k) then m.map (fun p => if p.1 == k then (p.1, v) else p)
  else m ++ [(k, v)]

/-- The `column_map` dict built by `auto_fix_columns`: lowercased table name →
lowercased column names, assigned in schema order so that of two table names
equal after lowercasing the later one wins, as in the Python dict. -/
def columnMapOf (schema : Schema) : List (String × List String) :=
  schema.foldl
    (fun acc ti => dictInsert acc (lowerS ti.1) (ti.2.columns.map (fun c => lowerS c.1))) []

/-- One iteration of the qualified-reference loop of `auto_fix_columns`:
skip unknown tables and already-valid columns, otherwise substitute the
closest match (cutoff 0.6) everywhere. -/
def qualifiedFixStep (closeMatch : CloseMatchFn) (column_map : List (String × List String))
    (acc : String) (tc : String × String) : String :=
  match alookup column_map (lowerS tc.1) with
  | none => acc
  | some candidates =>
    if candidates.contains (lowerS tc.2) then acc
    else
      match closeMatch (lowerS tc.2) candidates (mkRat 6 10) with
      | some correct => subAllQual acc tc.1 tc.2 correct
      | none => acc

/-- One iteration of the bare-word loop of `auto_fix_columns`: skip SQL
keywords, table names and known columns, otherwise substitute the first
occurrence of the closest match across all tables (cutoff 0.7). -/
def bareFixStep (closeMatch : CloseMatchFn) (column_map : List (String × List String))
    (acc : String) (w : String) : String :=
  if sqlKeywordsList.contains w || (column_map.map Prod.fst).contains w then acc
  else if column_map.any (fun p => p.2.contains w) then acc
  else
    match closeMatch w (column_map.foldr (fun p r => p.2 ++ r) []) (mkRat 7 10) with
    | some m => subBareFirst acc w m
    | none => acc

/-- `auto_fix_columns(sql, schema)` (self_correction.py lines 899-984): replace
invalid qualified `table.column` references by the closest column of that table
(cutoff 0.6), then replace the first occurrence of each bare word that is
neither a SQL keyword, a table name nor any table's column by the closest
column across all tables (cutoff 0.7).  The qualified matches are computed
from the original text and the bare words from the text after the qualified
pass, as in the source.  The `all_columns` dict built by the source is dead
code (never read) and is not modelled. -/
def auto_fix_columns (closeMatch : CloseMatchFn) (sql : String) (schema : Schema) : String :=
  let column_map := columnMapOf schema
  let sql1 := (qualifiedRefs sql).foldl (qualifiedFixStep closeMatch column_map) sql
  (wordRuns (toLowerL sql1.data)).foldl (bareFixStep closeMatch column_map) sql1

/-! ## Correction strategies (correction_strategies.py) -/

/-- `NON_RETRYABLE_ERRORS` (correction_strategies.py lines 407-411). -/
def NON_RETRYABLE_ERRORS : List String := ["permission_denied", "connection_error"]

/-- `re.search(r"column ['\x22](\w+)['\x22]", feedback, re.IGNORECASE)`
(ColumnNotFoundStrategy). -/
def colQuoteScan : List Char → Option String
  | [] => none
  | c :: rest =>
    if prefMatchCI "column ".data (c :: rest) then
      match (c :: rest).drop 7 with
      | q :: r2 =>
        if (q == '\x27' || q == '\x22') && !(r2.takeWhile isWordChar).isEmpty &&
            (match r2.dropWhile isWordChar with
             | q2 :: _ => q2 == '\x27' || q2 == '\x22'
             | [] => false) then
          some (String.mk (r2.takeWhile isWordChar))
        else colQuoteScan rest
      | [] => colQuoteScan rest
    else colQuoteScan rest

/-- `ColumnNotFoundStrategy.generate_prompt`. -/
def columnStrategyPrompt (error_feedback failed_sql question : String) : String :=
  let missing_col := (colQuoteScan error_feedback.data).getD "unknown"
  pyStrip ("Failed SQL:\n        " ++ failed_sql ++
    "\n\n        Error: Column \x27" ++ missing_col ++ "\x27 does not exist." ++
    "\n\n        DO NOT use column \x27" ++ missing_col ++ "\x27 again." ++
    "\n        Replace it using correct schema columns." ++
    "\n\n        Return corrected SQL only for: " ++ question ++ "\n        ")

/-- `AggregationErrorStrategy.generate_prompt`. -/
def aggregationStrategyPrompt (failed_sql question : String) : String :=
  pyStrip ("Failed SQL:\n        " ++ failed_sql ++
    "\n\n        Error: Missing GROUP BY clause." ++
    "\n\n        Do NOT change joins or aggregations." ++
    "\n        Only add required columns to GROUP BY." ++
    "\n\n        Return corrected SQL for: " ++ question ++ "\n        ")

/-- `TimeoutStrategy.generate_prompt`. -/
def timeoutStrategyPrompt (failed_sql question : String) : String :=
  let hints :=
    (if !containsS (upperS failed_sql) "LIMIT" then ["Add LIMIT 100 if missing"] else []) ++
      ["Remove unnecessary JOINs", "Simplify complex aggregations"]
  pyStrip ("Failed SQL (timed out after 30 seconds):\n" ++ failed_sql ++
    "\n\nError: Query timeout.\n\nSimplify the query:\n" ++
    String.intercalate "\n" (hints.map (fun h => "- " ++ h)) ++
    "\n\nRegenerate simpler SQL for: " ++ question ++ "\n")

/-- `GenericStrategy.generate_prompt`. -/
def genericStrategyPrompt (error_feedback failed_sql question : String) : String :=
  pyStrip ("Failed SQL:\n        " ++ failed_sql ++
    "\n\n        Error:\n        " ++ error_feedback ++
    "\n\n        Do NOT repeat the same mistake." ++
    "\n        Return corrected SQL only for: " ++ question ++ "\n        ")

/-- `CorrectionStrategyRouter.generate_prompt`: dictionary dispatch on the
error type with `GenericStrategy` as the default (`None` falls through to the
default, as `dict.get` does). -/
def routerGeneratePrompt (error_type : Option String)
    (error_feedback failed_sql question : String) : String :=
  if error_type == some "column_not_found" then
    columnStrategyPrompt error_feedback failed_sql question
  else if error_type == some "aggregation_error" then
    aggregationStrategyPrompt failed_sql question
  else if error_type == some "timeout" then
    timeoutStrategyPrompt failed_sql question
  else genericStrategyPrompt error_feedback failed_sql question

/-- `build_critic_correction_prompt` (correction_strategies.py lines 367-400). -/
def build_critic_correction_prompt (failed_sql : String) (critic_issues : List String)
    (question : String) : String :=
  pyStrip ("Failed SQL:\n" ++ failed_sql ++ "\n\nCritic Issues:\n" ++
    String.intercalate "\n" (critic_issues.map (fun i => "- " ++ i)) ++
    "\n\nFix and regenerate for: " ++ question ++ "\n")

/-! ## Orchestrator state machine (self_correction.py) -/

/-- The dict stored in `state["validation_result"]` by `critic_node`. -/
structure ValidationSummary where
  is_valid : Bool
  confidence : ℚ
  issues : List String
deriving DecidableEq

/-- The dict stored in `state["execution_result"]` by `execute_node`.
`error_type`/`error_message`/`error_feedback` are `None` on success.  The raw
row data and the float `execution_time_ms` play no role in any claim and are
not modelled. -/
structure ExecOutcome where
  success : Bool
  error_type : Option String
  error_message : Option String
  error_feedback : Option String
  row_count : Nat
deriving DecidableEq

/-- `SQLCorrectionState` (self_correction.py lines 46-70).  The two result
dicts start out empty (`{}`), modelled by `Option`. -/
structure SQLCorrectionState where
  question : String
  filtered_schema : Schema
  generated_sql : String
  validation_result : Option ValidationSummary
  execution_result : Option ExecOutcome
  attempt_number : Nat
  max_attempts : Nat
  previous_sqls : List String
  final_success : Bool
  fallback_used : Bool
deriving DecidableEq

/-- The external collaborators of one orchestrator run (spec §6): the schema
provider, the two generation-service entry points, the `sqlparse` oracle and
configured threshold of the Critic instance, the database execution service
(returning the fields `execute_node` stores), and the `difflib` close-match
oracle used by Auto-Repair. -/
structure Env where
  linkSchema : String → Schema
  generate : String → Schema → String
  generateWithCorrection : String → Schema → String → String
  parserOracle : String → Option String
  threshold : ℚ
  execute : String → Schema → ExecOutcome
  closeMatch : CloseMatchFn

/-- An `f"{x}"` of a possibly-`None` Python value. -/
def pyOptStr (o : Option String) : String := o.getD "None"

/-- `build_correction_prompt` (self_correction.py lines 156-206).
`state["validation_result"].get("is_valid", True)` / `.get("issues", [])` and
`state["execution_result"].get(...)` translate to `Option` reads; an
execution-result dict, when present, always carries its keys (possibly `None`). -/
def build_correction_prompt (st : SQLCorrectionState) : String :=
  let failed_sql := st.generated_sql
  let question := st.question
  if !((st.validation_result.map (fun v => v.is_valid)).getD true) then
    "IMPORTANT: Previous SQL was incorrect. You MUST fix the error.\n\n        " ++
      build_critic_correction_prompt failed_sql
        ((st.validation_result.map (fun v => v.issues)).getD []) question ++
      "\n        "
  else
    let error_type : Option String :=
      match st.execution_result with
      | none => some "unknown"
      | some r => r.error_type
    let error_feedback : String :=
      match st.execution_result with
      | none => "Unknown error"
      | some r => pyOptStr r.error_feedback
    "IMPORTANT: Previous SQL was incorrect.\n    You MUST fix the listed issues." ++
      "\n    Do NOT repeat the same SQL.\n\n    " ++
      routerGeneratePrompt error_type error_feedback failed_sql question ++ "\n    "

/-- Node 1, `schema_link_node`: runs once per question; the result is cached in
the state for every retry. -/
def schema_link_node (env : Env) (st : SQLCorrectionState) : SQLCorrectionState :=
  { st with filtered_schema := env.linkSchema st.question }

/-- Node 2, `generate_sql_node` (self_correction.py lines 250-304): attempt 1
calls the generation collaborator, attempt 2 applies `auto_fix_columns` to
`previous_sqls[-1]` with no model call, attempt 3 (and later) calls the
collaborator with a correction prompt.  The new SQL is appended to
`previous_sqls`. -/
def generate_sql_node (env : Env) (st : SQLCorrectionState) : SQLCorrectionState :=
  let sql :=
    if st.attempt_number == 1 then env.generate st.question st.filtered_schema
    else if st.attempt_number == 2 then
      auto_fix_columns env.closeMatch (lastD st.previous_sqls "") st.filtered_schema
    else
      env.generateWithCorrection st.question st.filtered_schema (build_correction_prompt st)
  { st with generated_sql := sql, previous_sqls := st.previous_sqls ++ [sql] }

/-- Node 3, `critic_node` (self_correction.py lines 307-362): validate; if
invalid and some issue mentions "does not exist", attempt one opportunistic
auto-repair and re-validate when the repair changed the normalized SQL. -/
def critic_node (env : Env) (st : SQLCorrectionState) : SQLCorrectionState :=
  let result := CriticAgent.validate env.parserOracle env.threshold st.generated_sql
    st.filtered_schema st.question
  let fixPair :=
    if !result.is_valid &&
        result.issues.any (fun i => containsS (lowerS i) "does not exist") then
      let fixed := auto_fix_columns env.closeMatch st.generated_sql st.filtered_schema
      if normalize_sql fixed != normalize_sql st.generated_sql then
        (fixed, CriticAgent.validate env.parserOracle env.threshold fixed
          st.filtered_schema st.question)
      else (st.generated_sql, result)
    else (st.generated_sql, result)
  { st with generated_sql := fixPair.1,
            validation_result := some ⟨fixPair.2.is_valid, fixPair.2.confidence, fixPair.2.issues⟩ }

/-- Node 4, `execute_node` (self_correction.py lines 365-410): run the SQL via
the execution service and persist success/failure in `final_success`. -/
def execute_node (env : Env) (st : SQLCorrectionState) : SQLCorrectionState :=
  let r := env.execute st.generated_sql st.filtered_schema
  { st with execution_result := some r, final_success := r.success }

/-- Node 5, `increment_attempt_node` (self_correction.py lines 413-435). -/
def increment_attempt_node (st : SQLCorrectionState) : SQLCorrectionState :=
  if st.final_success then st
  else { st with attempt_number := st.attempt_number + 1 }

/-- The strings returned by the conditional-edge routers (`END` is `endRun`). -/
inductive Route where
  | execute
  | increment_attempt
  | endRun
deriving DecidableEq

/-- `should_execute_or_retry` (self_correction.py lines 447-478).  Routers may
mutate the state (`final_success`), so the updated state is returned alongside
the route.  `validation_result` is always present here (the critic node
precedes this router in the graph); an absent dict reads as invalid. -/
def should_execute_or_retry (st : SQLCorrectionState) : Route × SQLCorrectionState :=
  if (st.validation_result.map (fun v => v.is_valid)).getD false then (.execute, st)
  else if st.attempt_number ≥ st.max_attempts then
    (.endRun, { st with final_success := false })
  else (.increment_attempt, st)

/-- The retry guard of `should_retry_or_end`:
`len(previous_sqls) >= 2` and the two most recent SQL texts normalize equal. -/
def guardTriggered (st : SQLCorrectionState) : Bool :=
  match lastTwo st.previous_sqls with
  | some pc => normalize_sql pc.2 == normalize_sql pc.1
  | none => false

/-- `should_retry_or_end` (self_correction.py lines 481-541), checked in order:
success → END; attempts exhausted → END; non-retryable error type → END;
retry guard → END; otherwise retry.  `execution_result` is always present here
(the execute node precedes this router); an absent dict reads as immediate end. -/
def should_retry_or_end (st : SQLCorrectionState) : Route × SQLCorrectionState :=
  match st.execution_result with
  | none => (.endRun, st)
  | some er =>
    if er.success then (.endRun, { st with final_success := true })
    else if st.attempt_number ≥ st.max_attempts then
      (.endRun, { st with final_success := false })
    else if (match er.error_type with
             | some t => NON_RETRYABLE_ERRORS.contains t
             | none => false) then
      (.endRun, { st with final_success := false })
    else if guardTriggered st then (.endRun, { st with final_success := false })
    else (.increment_attempt, st)

/-- Outcome of one Generate → Validate → [Execute] cycle of the compiled graph. -/
inductive CycleResult where
  | terminal (st : SQLCorrectionState)
  | again (st : SQLCorrectionState)
deriving DecidableEq

def CycleResult.state : CycleResult → SQLCorrectionState
  | .terminal st => st
  | .again st => st

def CycleResult.isAgain : CycleResult → Bool
  | .terminal _ => false
  | .again _ => true

/-- One pass of the graph from `generate_sql` up to (but excluding) the next
`increment_attempt`, following the edges wired by
`create_self_correction_graph`: generate → critic → route; on `execute`,
execute → route.  The `Route.execute` arm of the second router is unreachable
(that router never returns it). -/
def runCycle (env : Env) (st : SQLCorrectionState) : CycleResult :=
  let st1 := critic_node env (generate_sql_node env st)
  match should_execute_or_retry st1 with
  | (Route.execute, st2) =>
    match should_retry_or_end (execute_node env st2) with
    | (Route.increment_attempt, st4) => .again st4
    | (Route.endRun, st4) => .terminal st4
    | (Route.execute, st4) => .terminal st4
  | (Route.increment_attempt, st2) => .again st2
  | (Route.endRun, st2) => .terminal st2

/-- Fuel-indexed run of the retry loop: each unit of fuel is one
Generate/Validate/[Execute] cycle; `again` passes through `increment_attempt`
and loops back to generate.  Returns the terminal state and the number of
cycles (= entries into the Generate node) actually performed. -/
def runLoop (env : Env) : Nat → SQLCorrectionState → Option (SQLCorrectionState × Nat)
  | 0, _ => none
  | fuel + 1, st =>
    match runCycle env st with
    | .terminal stF => some (stF, 1)
    | .again st2 =>
      match runLoop env fuel (increment_attempt_node st2) with
      | some p => some (p.1, p.2 + 1)
      | none => none

/-- The initial state built by `CorrectionAgent.execute_with_retry`
(self_correction.py lines 832-843). -/
def initState (question : String) (max_attempts : Nat) : SQLCorrectionState :=
  ⟨question, [], "", none, none, 1, max_attempts, [], false, false⟩

/-- A full run: `schema_link` once, then the retry loop under the given fuel. -/
def runCorrection (env : Env) (question : String) (max_attempts fuel : Nat) :
    Option (SQLCorrectionState × Nat) :=
  runLoop env fuel (schema_link_node env (initState question max_attempts))

end QueryPilot
namespace QueryPilot

/-! ## Staged confidence of the Validator

`confC1` .. `confC4` name the intermediate running confidences of
`CriticAgent.validate`; each equation below holds definitionally. -/

def confC1 (parserOracle : String → Option String) (sql : String) : ℚ :=
  if (syntaxCheck parserOracle sql).valid then 1 else qSub 1 (mkRat 6 10)

def confC2 (parserOracle : String → Option String) (sql : String) (schema : Schema) : ℚ :=
  if (schemaCheck sql schema).valid then confC1 parserOracle sql
  else qSub (confC1 parserOracle sql)
    (qMul (mkRat 4 10) (((schemaCheck sql schema).issues.length : ℚ)))

def confC3 (parserOracle : String → Option String) (sql : String) (schema : Schema) : ℚ :=
  if (safetyCheck sql).valid then confC2 parserOracle sql schema else 0

def confC4 (parserOracle : String → Option String) (sql : String) (schema : Schema) : ℚ :=
  if (semanticCheck sql).valid then confC3 parserOracle sql schema
  else qSub (confC3 parserOracle sql schema)
    (qMul (mkRat 2 10) (((semanticCheck sql).issues.length : ℚ)))

theorem validate_confidence_def (p : String → Option String) (t : ℚ) (sql : String)
    (schema : Schema) (q : String) :
    (CriticAgent.validate p t sql schema q).confidence = max 0 (min (confC4 p sql schema) 1) := rfl

theorem validate_is_valid_def (p : String → Option String) (t : ℚ) (sql : String)
    (schema : Schema) (q : String) :
    (CriticAgent.validate p t sql schema q).is_valid =
      (decide (t ≤ max 0 (min (confC4 p sql schema) 1)) &&
        decide (0 < max 0 (min (confC4 p sql schema) 1))) := rfl

theorem safetyCheck_valid_false {sql : String}
    (h : unsafeKeywords.any (fun kw => containsS (upperS sql) kw) = true) :
    (safetyCheck sql).valid = false := by
  unfold safetyCheck
  rcases List.any_eq_true.mp h with ⟨kw, hmem, hkw⟩
  cases hfil : unsafeKeywords.filter (fun kw => containsS (upperS sql) kw) with
  | nil =>
    exact absurd (List.filter_eq_nil_iff.mp hfil kw hmem) (by simp [hkw])
  | cons a as => simp [hfil]

/-! ## Router and cycle lemmas for the orchestrator loop -/

theorem seor_execute {st st2 : SQLCorrectionState}
    (h : should_execute_or_retry st = (Route.execute, st2)) : st2 = st := by
  unfold should_execute_or_retry at h
  split_ifs at h <;> simp_all

theorem seor_increment {st st2 : SQLCorrectionState}
    (h : should_execute_or_retry st = (Route.increment_attempt, st2)) :
    st2 = st ∧ st.attempt_number < st.max_attempts := by
  unfold should_execute_or_retry at h
  split_ifs at h with h1 h2
  · simp at h
  · simp at h
  · simp only [Prod.mk.injEq, true_and] at h
    exact ⟨h.symm, by omega⟩

theorem sroe_increment {st st2 : SQLCorrectionState}
    (h : should_retry_or_end st = (Route.increment_attempt, st2)) :
    st2 = st ∧ st.attempt_number < st.max_attempts ∧
      ∃ er, st.execution_result = some er ∧ er.success = false := by
  unfold should_retry_or_end at h
  cases hex : st.execution_result with
  | none => rw [hex] at h; simp at h
  | some er =>
    rw [hex] at h
    dsimp only at h
    by_cases hsuc : er.success = true
    · simp [hsuc] at h
    · by_cases hmax : st.attempt_number ≥ st.max_attempts
      · simp [hsuc, hmax] at h
      · cases het : er.error_type with
        | none =>
          rw [het] at h
          by_cases hg : guardTriggered st = true
          · simp [hsuc, hmax, hg] at h
          · simp [hsuc, hmax, hg] at h
            exact ⟨h.symm, by omega, er, rfl, by simpa using hsuc⟩
        | some t =>
          rw [het] at h
          by_cases hnr : t ∈ NON_RETRYABLE_ERRORS
          · simp [hsuc, hmax, hnr] at h
          · by_cases hg : guardTriggered st = true
            · simp [hsuc, hmax, hnr, hg] at h
            · simp [hsuc, hmax, hnr, hg] at h
              exact ⟨h.symm, by omega, er, rfl, by simpa using hsuc⟩

/-- Unfolded form of `runCycle` (definitional). -/
theorem runCycle_eq (env : Env) (st : SQLCorrectionState) :
    runCycle env st =
      (match should_execute_or_retry (critic_node env (generate_sql_node env st)) with
      | (Route.execute, st2) =>
        match should_retry_or_end (execute_node env st2) with
        | (Route.increment_attempt, st4) => CycleResult.again st4
        | (Route.endRun, st4) => CycleResult.terminal st4
        | (Route.execute, st4) => CycleResult.terminal st4
      | (Route.increment_attempt, st2) => CycleResult.again st2
      | (Route.endRun, st2) => CycleResult.terminal st2) := rfl

/-- A cycle that loops back to `increment_attempt` preserves the attempt
counter and ceiling, leaves `final_success` false, and can only happen while
attempts remain below the ceiling. -/
theorem runCycle_again {env : Env} {st st2c : SQLCorrectionState}
    (hfs : st.final_success = false) (h : runCycle env st = .again st2c) :
    st2c.attempt_number = st.attempt_number ∧ st2c.max_attempts = st.max_attempts ∧
      st2c.final_success = false ∧ st.attempt_number < st.max_attempts := by
  rw [runCycle_eq] at h
  rcases hr1 : should_execute_or_retry (critic_node env (generate_sql_node env st))
    with ⟨r1, st2⟩
  rw [hr1] at h
  have e1 : (critic_node env (generate_sql_node env st)).attempt_number = st.attempt_number := rfl
  have e2 : (critic_node env (generate_sql_node env st)).max_attempts = st.max_attempts := rfl
  have e3 : (critic_node env (generate_sql_node env st)).final_success = st.final_success := rfl
  cases r1 with
  | execute =>
    dsimp only at h
    have hst2 := seor_execute hr1
    rcases hr2 : should_retry_or_end (execute_node env st2) with ⟨r2, st4⟩
    rw [hr2] at h
    cases r2 with
    | increment_attempt =>
      dsimp only at h
      simp only [CycleResult.again.injEq] at h
      subst h
      obtain ⟨he, hlt, er, her, hsuc⟩ := sroe_increment hr2
      subst he
      have hx1 : (execute_node env st2).attempt_number = st2.attempt_number := rfl
      have hx2 : (execute_node env st2).max_attempts = st2.max_attempts := rfl
      have hx3 : (execute_node env st2).execution_result =
          some (env.execute st2.generated_sql st2.filtered_schema) := rfl
      have hx4 : (execute_node env st2).final_success =
          (env.execute st2.generated_sql st2.filtered_schema).success := rfl
      rw [hx3] at her
      have her2 : er = env.execute st2.generated_sql st2.filtered_schema :=
        (Option.some.inj her).symm
      have hlt2 : st.attempt_number < st.max_attempts := by
        rw [hx1, hx2, hst2, e1, e2] at hlt
        exact hlt
      refine ⟨?_, ?_, ?_, hlt2⟩
      · rw [hx1, hst2, e1]
      · rw [hx2, hst2, e2]
      · rw [hx4, ← her2]; exact hsuc
    | endRun => dsimp only at h; simp at h
    | execute => dsimp only at h; simp at h
  | increment_attempt =>
    dsimp only at h
    simp only [CycleResult.again.injEq] at h
    subst h
    obtain ⟨he, hlt⟩ := seor_increment hr1
    subst he
    rw [e1, e2] at hlt
    exact ⟨e1, e2, by rw [e3]; exact hfs, hlt⟩
  | endRun => dsimp only at h; simp at h

theorem increment_fields {st : SQLCorrectionState} (hfs : st.final_success = false) :
    increment_attempt_node st = { st with attempt_number := st.attempt_number + 1 } := by
  unfold increment_attempt_node
  rw [hfs]
  simp

/-- One step of `runLoop` (definitional). -/
theorem runLoop_succ (env : Env) (fuel : Nat) (st : SQLCorrectionState) :
    runLoop env (fuel + 1) st = match runCycle env st with
      | .terminal stF => some (stF, 1)
      | .again st2 =>
        match runLoop env fuel (increment_attempt_node st2) with
        | some p => some (p.1, p.2 + 1)
        | none => none := rfl

/-- Fuel `max_attempts - attempt_number + 1` suffices for the loop to reach a
terminal state. -/
theorem runLoop_total (env : Env) :
    ∀ (k : Nat) (st : SQLCorrectionState), st.final_success = false →
      st.max_attempts ≤ st.attempt_number + k →
      (runLoop env (k + 1) st).isSome = true := by
  intro k
  induction k with
  | zero =>
    intro st hfs hmax
    rw [runLoop_succ]
    cases hc : runCycle env st with
    | terminal stF => simp
    | again st2 =>
      obtain ⟨_, _, _, hlt⟩ := runCycle_again hfs hc
      omega
  | succ k ih =>
    intro st hfs hmax
    rw [runLoop_succ]
    cases hc : runCycle env st with
    | terminal stF => simp
    | again st2 =>
      obtain ⟨ha, hm, hf, hlt⟩ := runCycle_again hfs hc
      have hinc := increment_fields hf
      have hj1 : (increment_attempt_node st2).final_success = false := by
        rw [hinc]
        exact hf
      have hj2 : (increment_attempt_node st2).attempt_number = st2.attempt_number + 1 := by
        rw [hinc]
      have hj3 : (increment_attempt_node st2).max_attempts = st2.max_attempts := by
        rw [hinc]
      have hrec := ih (increment_attempt_node st2) hj1 (by rw [hj2, hj3]; omega)
      cases hrl : runLoop env (k + 1) (increment_attempt_node st2) with
      | none => rw [hrl] at hrec; simp at hrec
      | some p => simp [hrl]

/-- The number of performed cycles is bounded by the remaining attempt budget. -/
theorem runLoop_count (env : Env) :
    ∀ (fuel : Nat) (st : SQLCorrectionState) (p : SQLCorrectionState × Nat),
      st.final_success = false → runLoop env fuel st = some p →
      p.2 ≤ st.max_attempts - st.attempt_number + 1 := by
  intro fuel
  induction fuel with
  | zero =>
    intro st p _ h
    rw [show runLoop env 0 st = none from rfl] at h
    exact absurd h (by simp)
  | succ fuel ih =>
    intro st p hfs h
    rw [runLoop_succ] at h
    cases hc : runCycle env st with
    | terminal stF =>
      rw [hc] at h
      dsimp only at h
      simp only [Option.some.injEq] at h
      subst h
      show (1:Nat) ≤ _
      omega
    | again st2 =>
      rw [hc] at h
      dsimp only at h
      obtain ⟨ha, hm, hf, hlt⟩ := runCycle_again hfs hc
      have hinc := increment_fields hf
      have hj1 : (increment_attempt_node st2).final_success = false := by
        rw [hinc]
        exact hf
      have hj2 : (increment_attempt_node st2).attempt_number = st2.attempt_number + 1 := by
        rw [hinc]
      have hj3 : (increment_attempt_node st2).max_attempts = st2.max_attempts := by
        rw [hinc]
      cases hrl : runLoop env fuel (increment_attempt_node st2) with
      | none => rw [hrl] at h; simp at h
      | some q =>
        rw [hrl] at h
        simp only [Option.some.injEq] at h
        subst h
        have hq := ih (increment_attempt_node st2) q hj1 hrl
        rw [hj2, hj3] at hq
        show q.2 + 1 ≤ _
        omega

/-- Membership in `NON_RETRYABLE_ERRORS`, by error category. -/
theorem nonretryable_iff (c : ErrorCategory) :
    (categoryValue c ∈ NON_RETRYABLE_ERRORS) ↔
      (c = ErrorCategory.permission_denied ∨ c = ErrorCategory.connection_error) := by
  cases c <;> decide

theorem foldl_fixed {α β : Type} (f : α → β → α) (a : α) (l : List β)
    (h : ∀ b ∈ l, f a b = a) : l.foldl f a = a := by
  induction l with
  | nil => rfl
  | cons b rest ih =>
    rw [List.foldl_cons, h b (by simp)]
    exact ih (fun x hx => h x (by simp [hx]))

/-! ## Concrete instances used as counterexamples and witnesses -/

/-- A `sqlparse` oracle that reports no syntax issue. -/
def noParse : String → Option String := fun _ => none

/-- A `difflib.get_close_matches` oracle that finds no match. -/
def noMatch : CloseMatchFn := fun _ _ _ => none

def c7Sql : String := "SELECT * FROM products, orders"

def c7Schema : Schema :=
  [("products", ⟨[("product_id", "INTEGER"), ("name", "VARCHAR"), ("price", "DECIMAL")],
     ["product_id"], []⟩),
   ("orders", ⟨[("order_id", "INTEGER"), ("customer_id", "INTEGER"), ("total", "DECIMAL")],
     ["order_id"], []⟩)]

/-- Collaborators that always regenerate the same SQL, whose execution always
fails with a retryable syntax error, and whose schema link is empty (so the
Critic blocks every attempt before execution). -/
def envC3 : Env :=
  ⟨fun _ => [], fun _ _ => "SELECT 1", fun _ _ _ => "SELECT 1",
   fun _ => none, mkRat 7 10, fun _ _ => ⟨false, some "syntax_error", some "boom", some "boom", 0⟩,
   fun _ _ _ => none⟩

def c3s0 : SQLCorrectionState := schema_link_node envC3 (initState "q" 3)

def c3s1 : SQLCorrectionState := increment_attempt_node (runCycle envC3 c3s0).state

/-- Benign collaborators: generation succeeds and execution succeeds. -/
def envW : Env :=
  ⟨fun _ => c7Schema, fun _ _ => "SELECT product_id FROM products",
   fun _ _ _ => "SELECT product_id FROM products", fun _ => none, mkRat 7 10,
   fun _ _ => ⟨true, none, none, none, 1⟩, fun _ _ _ => none⟩

def erFail : ExecOutcome := ⟨false, some "syntax_error", some "boom", some "boom", 0⟩

/-- A post-execution state whose two most recent SQL texts normalize equally. -/
def stDup : SQLCorrectionState :=
  ⟨"q", [], "", none, some erFail, 1, 3, ["select  1", "SELECT 1"], false, false⟩

def c4Msg : String := "permission denied for table users"

def erPerm : ExecOutcome := ⟨false, some "permission_denied", some c4Msg, some c4Msg, 0⟩

def stPerm : SQLCorrectionState := ⟨"q", [], "", none, some erPerm, 1, 3, [], false, false⟩

def c8Sql : String := "SELECT product_id FROM products"

/-- A state entering its second Generate attempt with one previous SQL. -/
def stC9 : SQLCorrectionState :=
  ⟨"q", c7Schema, "", none, none, 2, 3, ["SELECT prodct_id FROM products"], false, false⟩

theorem stC9_prev_ne : stC9.previous_sqls ≠ [] :=
  show ["SELECT prodct_id FROM products"] ≠ [] from List.cons_ne_nil _ _

/-! ## The claims -/

/-- C1: for every question and every sequence of collaborator responses, the
orchestrator reaches a terminal state (fuel `max_attempts` suffices for
`runLoop` to return), and every terminating run performs at most
`max_attempts` Generate/Validate/[Execute] cycles. -/
theorem c1_run_terminates_within_max_attempts (env : Env) (question : String)
    (m : Nat) (hm : 1 ≤ m) :
    (∃ p, runCorrection env question m m = some p) ∧
      (∀ fuel p, runCorrection env question m fuel = some p → p.2 ≤ m) := by
  have hi1 : (schema_link_node env (initState question m)).final_success = false := rfl
  have hi2 : (schema_link_node env (initState question m)).attempt_number = 1 := rfl
  have hi3 : (schema_link_node env (initState question m)).max_attempts = m := rfl
  constructor
  · have ht := runLoop_total env (m - 1) (schema_link_node env (initState question m)) hi1
      (by rw [hi2, hi3]; omega)
    have hms : m - 1 + 1 = m := by omega
    rw [hms] at ht
    unfold runCorrection
    exact Option.isSome_iff_exists.mp ht
  · intro fuel p h
    have hc := runLoop_count env fuel (schema_link_node env (initState question m)) p hi1 h
    rw [hi2, hi3] at hc
    omega

theorem c1_run_terminates_within_max_attempts_witness :
    (∃ p, runCorrection envW "q" 3 3 = some p) ∧
      (∀ fuel p, runCorrection envW "q" 3 fuel = some p → p.2 ≤ 3) :=
  c1_run_terminates_within_max_attempts envW "q" 3 (by decide)

/-- C2: any SQL containing a destructive keyword (case-insensitive, anywhere in
the text) validates with `is_valid = false` and confidence exactly 0, for every
parser oracle, threshold, schema and question. -/
theorem c2_destructive_keyword_invalidates (parserOracle : String → Option String)
    (threshold : ℚ) (sql : String) (schema : Schema) (q : String)
    (h : unsafeKeywords.any (fun kw => containsS (upperS sql) kw) = true) :
    (CriticAgent.validate parserOracle threshold sql schema q).is_valid = false ∧
      (CriticAgent.validate parserOracle threshold sql schema q).confidence = 0 := by
  have hs := safetyCheck_valid_false h
  have hpen : (0:ℚ) ≤ 2/10 * ((semanticCheck sql).issues.length : ℚ) := by positivity
  have h4 : confC4 parserOracle sql schema ≤ 0 := by
    unfold confC4 confC3
    rw [hs]
    simp only [qSub_eq, qMul_eq, Rat.mkRat_eq_div]
    split_ifs <;> first | exact ‹False›.elim | norm_num | linarith
  have hconf : max 0 (min (confC4 parserOracle sql schema) 1) = 0 := by
    rw [min_eq_left (le_trans h4 zero_le_one), max_eq_left h4]
  refine ⟨?_, ?_⟩
  · rw [validate_is_valid_def, hconf]
    have hz : decide ((0:ℚ) < 0) = false := decide_eq_false (lt_irrefl 0)
    rw [hz, Bool.and_false]
  · rw [validate_confidence_def, hconf]

theorem c2_destructive_keyword_invalidates_witness :
    unsafeKeywords.any (fun kw => containsS (upperS "DROP TABLE users") kw) = true ∧
    ((CriticAgent.validate noParse (mkRat 7 10) "DROP TABLE users" c7Schema "q").is_valid
        = false ∧
      (CriticAgent.validate noParse (mkRat 7 10) "DROP TABLE users" c7Schema "q").confidence
        = 0) :=
  ⟨by decide,
   c2_destructive_keyword_invalidates noParse (mkRat 7 10) "DROP TABLE users" c7Schema "q"
     (by decide)⟩

/-- C3 counterexample: in the run driven by `envC3` the Critic blocks every
attempt, so the duplicate check of `should_retry_or_end` is never consulted:
after the second cycle the two most recent SQL texts are equal (hence equal
after normalization), yet the router loops back and a third Generate cycle is
performed (the completed run counts 3 cycles). -/
theorem c3_duplicate_sql_reaches_third_generate :
    (runCycle envC3 c3s1).state.previous_sqls = ["SELECT 1", "SELECT 1"] ∧
    normalize_sql "SELECT 1" = normalize_sql "SELECT 1" ∧
    (runCycle envC3 c3s1).isAgain = true ∧
    (runCorrection envC3 "q" 3 3).map (fun p => p.2) = some 3 := ⟨rfl, rfl, rfl, rfl⟩

/-- C3 amended: on the post-execution path the duplicate guard does hold:
whenever execution failed and the two most recent SQL texts are equal after
normalization, `should_retry_or_end` ends the run with `final_success = false`
instead of routing to another Generate cycle. -/
theorem c3_duplicate_guard_on_execution_path (st : SQLCorrectionState)
    (er : ExecOutcome) (a b : String)
    (h1 : st.execution_result = some er) (h2 : er.success = false)
    (h3 : lastTwo st.previous_sqls = some (a, b))
    (h4 : normalize_sql b = normalize_sql a) :
    (should_retry_or_end st).1 = Route.endRun ∧
      (should_retry_or_end st).2.final_success = false := by
  have hg : guardTriggered st = true := by
    unfold guardTriggered
    rw [h3]
    simp [h4]
  unfold should_retry_or_end
  rw [h1]
  dsimp only
  rw [h2]
  by_cases hmax : st.attempt_number ≥ st.max_attempts
  · simp [hmax]
  · cases het : er.error_type with
    | none => simp [hmax, hg]
    | some t =>
      by_cases hnr : t ∈ NON_RETRYABLE_ERRORS
      · simp [hmax, hnr]
      · simp [hmax, hnr, hg]

theorem c3_duplicate_guard_on_execution_path_witness :
    stDup.execution_result = some erFail ∧ erFail.success = false ∧
    lastTwo stDup.previous_sqls = some ("select  1", "SELECT 1") ∧
    normalize_sql "SELECT 1" = normalize_sql "select  1" ∧
    ((should_retry_or_end stDup).1 = Route.endRun ∧
      (should_retry_or_end stDup).2.final_success = false) :=
  ⟨rfl, rfl, rfl, rfl,
   c3_duplicate_guard_on_execution_path stDup erFail "select  1" "SELECT 1" rfl rfl rfl rfl⟩

/-- C4: an execution failure classified as permission-denied or
connection-error ends the run at once as a final failure; any other category
is retried while attempts remain and the duplicate guard is silent. -/
theorem c4_nonretryable_ends_run (st : SQLCorrectionState) (er : ExecOutcome) (msg : String)
    (h1 : st.execution_result = some er) (h2 : er.success = false)
    (h3 : er.error_type = some (categoryValue (ErrorClassifier.classify msg))) :
    ((ErrorClassifier.classify msg = ErrorCategory.permission_denied ∨
      ErrorClassifier.classify msg = ErrorCategory.connection_error) →
      (should_retry_or_end st).1 = Route.endRun ∧
        (should_retry_or_end st).2.final_success = false) ∧
    (ErrorClassifier.classify msg ≠ ErrorCategory.permission_denied →
      ErrorClassifier.classify msg ≠ ErrorCategory.connection_error →
      st.attempt_number < st.max_attempts → guardTriggered st = false →
      (should_retry_or_end st).1 = Route.increment_attempt) := by
  constructor
  · intro hcat
    have hmem : categoryValue (ErrorClassifier.classify msg) ∈ NON_RETRYABLE_ERRORS :=
      (nonretryable_iff _).mpr hcat
    unfold should_retry_or_end
    rw [h1]
    dsimp only
    rw [h2, h3]
    by_cases hmax : st.attempt_number ≥ st.max_attempts
    · simp [hmax]
    · simp [hmax, hmem]
  · intro hp hc hlt hg
    have hmem : ¬(categoryValue (ErrorClassifier.classify msg) ∈ NON_RETRYABLE_ERRORS) := by
      rw [nonretryable_iff]
      rintro (h | h)
      · exact hp h
      · exact hc h
    unfold should_retry_or_end
    rw [h1]
    dsimp only
    rw [h2, h3]
    have hmax : ¬(st.attempt_number ≥ st.max_attempts) := by omega
    simp [hmax, hmem, hg]

theorem c4_nonretryable_ends_run_witness :
    stPerm.execution_result = some erPerm ∧ erPerm.success = false ∧
    erPerm.error_type = some (categoryValue (ErrorClassifier.classify c4Msg)) ∧
    (((ErrorClassifier.classify c4Msg = ErrorCategory.permission_denied ∨
        ErrorClassifier.classify c4Msg = ErrorCategory.connection_error) →
        (should_retry_or_end stPerm).1 = Route.endRun ∧
          (should_retry_or_end stPerm).2.final_success = false) ∧
      (ErrorClassifier.classify c4Msg ≠ ErrorCategory.permission_denied →
        ErrorClassifier.classify c4Msg ≠ ErrorCategory.connection_error →
        stPerm.attempt_number < stPerm.max_attempts → guardTriggered stPerm = false →
        (should_retry_or_end stPerm).1 = Route.increment_attempt)) :=
  ⟨rfl, rfl, rfl, c4_nonretryable_ends_run stPerm erPerm c4Msg rfl rfl rfl⟩

/-- C5: for every parser oracle, threshold, SQL text, schema and question, the
confidence of the Validator result lies in the closed interval [0, 1]. -/
theorem c5_confidence_in_unit_interval (parserOracle : String → Option String)
    (threshold : ℚ) (sql : String) (schema : Schema) (q : String) :
    0 ≤ (CriticAgent.validate parserOracle threshold sql schema q).confidence ∧
      (CriticAgent.validate parserOracle threshold sql schema q).confidence ≤ 1 := by
  rw [validate_confidence_def]
  exact ⟨le_max_left _ _, max_le zero_le_one (min_le_right _ _)⟩

/-- C6 counterexample: a message whose lowercased text contains both
"syntax error" and "does not exist" can still classify as syntax-error, because
the column and table patterns require the words "column", "table" or
"relation" and are not matched by mere presence of "does not exist". -/
theorem c6_syntax_and_not_exist_classified_syntax_error :
    containsS (lowerS "syntax error: foo does not exist") "syntax error" = true ∧
    containsS (lowerS "syntax error: foo does not exist") "does not exist" = true ∧
    ErrorClassifier.classify "syntax error: foo does not exist" =
      ErrorCategory.syntax_error := ⟨rfl, rfl, rfl⟩

/-- C6 amended: the priority order is real for the patterns actually tested:
whenever the column-not-found or table-not-found pattern matches, the
classifier never answers syntax-error, and (absent the three higher-priority
categories) answers column-not-found or table-not-found. -/
theorem c6_column_table_before_syntax (msg : String)
    (h : checkColumnNotFound (toLowerL msg.data) = true ∨
      checkTableNotFound (toLowerL msg.data) = true) :
    ErrorClassifier.classify msg ≠ ErrorCategory.syntax_error ∧
      (checkTimeout (toLowerL msg.data) = false →
       checkConnection (toLowerL msg.data) = false →
       checkPermission (toLowerL msg.data) = false →
       ErrorClassifier.classify msg = ErrorCategory.column_not_found ∨
         ErrorClassifier.classify msg = ErrorCategory.table_not_found) := by
  simp only [ErrorClassifier.classify]
  rcases h with h | h <;> split_ifs <;> simp_all

theorem c6_column_table_before_syntax_witness :
    (checkColumnNotFound (toLowerL "column qq does not exist".data) = true ∨
      checkTableNotFound (toLowerL "column qq does not exist".data) = true) ∧
    (ErrorClassifier.classify "column qq does not exist" ≠ ErrorCategory.syntax_error ∧
      (checkTimeout (toLowerL "column qq does not exist".data) = false →
       checkConnection (toLowerL "column qq does not exist".data) = false →
       checkPermission (toLowerL "column qq does not exist".data) = false →
       ErrorClassifier.classify "column qq does not exist" = ErrorCategory.column_not_found ∨
         ErrorClassifier.classify "column qq does not exist" =
           ErrorCategory.table_not_found)) :=
  ⟨Or.inl (by decide), c6_column_table_before_syntax "column qq does not exist"
    (Or.inl (by decide))⟩

/-- C7 counterexample: validating `SELECT * FROM products, orders` against a
schema knowing both tables yields no issue at all, confidence 1 (not 0.8):
the table-extraction regex captures only the first table after FROM, so the
cartesian-product warning never fires. -/
theorem c7_products_orders_full_confidence :
    (CriticAgent.validate noParse (mkRat 7 10) c7Sql c7Schema "").issues = [] ∧
    (CriticAgent.validate noParse (mkRat 7 10) c7Sql c7Schema "").confidence = 1 ∧
    (CriticAgent.validate noParse (mkRat 7 10) c7Sql c7Schema "").confidence ≠ 8/10 ∧
    (CriticAgent.validate noParse (mkRat 7 10) c7Sql c7Schema "").is_valid = true := by
  refine ⟨rfl, rfl, ?_, rfl⟩
  intro hc
  rw [show (CriticAgent.validate noParse (mkRat 7 10) c7Sql c7Schema "").confidence = 1
    from rfl] at hc
  norm_num at hc

/-- C7 amended: for every parser oracle that accepts `c7Sql`, validating
`SELECT * FROM products, orders` against the two-table schema yields no issue,
confidence 1, and `is_valid = true` under the default threshold 0.7. -/
theorem c7_products_orders_validation (parserOracle : String → Option String)
    (hp : parserOracle c7Sql = none) :
    (CriticAgent.validate parserOracle (mkRat 7 10) c7Sql c7Schema "").issues = [] ∧
    (CriticAgent.validate parserOracle (mkRat 7 10) c7Sql c7Schema "").confidence = 1 ∧
    (CriticAgent.validate parserOracle (mkRat 7 10) c7Sql c7Schema "").is_valid = true := by
  have hs : syntaxCheck parserOracle c7Sql = ⟨true, []⟩ := by
    unfold syntaxCheck
    rw [hp]
    rfl
  refine ⟨?_, ?_, ?_⟩ <;>
  · unfold CriticAgent.validate
    rw [hs]
    rfl

theorem c7_products_orders_validation_witness :
    noParse c7Sql = none ∧
    ((CriticAgent.validate noParse (mkRat 7 10) c7Sql c7Schema "").issues = [] ∧
     (CriticAgent.validate noParse (mkRat 7 10) c7Sql c7Schema "").confidence = 1 ∧
     (CriticAgent.validate noParse (mkRat 7 10) c7Sql c7Schema "").is_valid = true) :=
  ⟨rfl, c7_products_orders_validation noParse rfl⟩

/-- Two tables whose names collide after lowercasing; the later assignment
wins in `column_map`, which then knows only column `xxy`. -/
def c8cxSchema : Schema :=
  [("A", ⟨[("xxx", "INTEGER")], [], []⟩), ("a", ⟨[("xxy", "INTEGER")], [], []⟩)]

def c8cxSql : String := "SELECT A.xxx FROM A"

/-- `difflib.get_close_matches` on the inputs of the collision example: the
ratio of `xxx` against `xxy` is 2/3, so the match is returned exactly when the
cutoff is at most 2/3 (in particular at 0.6, not at 0.7). -/
def cmC8 : CloseMatchFn :=
  fun w cands cutoff =>
    if w == "xxx" && cands == ["xxy"] && decide (cutoff ≤ mkRat 2 3) then some "xxy"
    else none

/-- C8 counterexample: `SELECT A.xxx FROM A` is already correct with respect
to the schema itself — its one qualified reference `A.xxx` names a column of
table `A`, and every bare word is a keyword, a table name or a column of some
table — yet Auto-Repair rewrites it: the `column_map` dict collapses the
case-colliding tables `A` and `a` to the later one, so the lookup misses
`xxx` and the close match `xxy` (ratio 2/3 ≥ cutoff 0.6) is substituted. -/
theorem c8_case_collision_rewrites_correct_sql :
    qualifiedRefs c8cxSql = [("A", "xxx")] ∧
    (∀ tc ∈ qualifiedRefs c8cxSql,
      c8cxSchema.any (fun ti => ti.1 == tc.1 &&
        (ti.2.columns.map Prod.fst).contains tc.2) = true) ∧
    (∀ w ∈ wordRuns (toLowerL c8cxSql.data),
      sqlKeywordsList.contains w = true ∨
      (c8cxSchema.map (fun ti => lowerS ti.1)).contains w = true ∨
      c8cxSchema.any
        (fun ti => (ti.2.columns.map (fun c => lowerS c.1)).contains w) = true) ∧
    auto_fix_columns cmC8 c8cxSql c8cxSchema = "SELECT A.xxy FROM A" ∧
    auto_fix_columns cmC8 c8cxSql c8cxSchema ≠ c8cxSql := by
  refine ⟨by decide, by decide, by decide, by decide, by decide⟩

/-- C8 amended: Auto-Repair is idempotent on SQL that is correct with respect
to the `column_map` the program actually builds (lowercased, last assignment
winning): if every qualified reference whose table is a key of that map names
one of the key's columns, and every bare word is a SQL keyword, a key of the
map or a column listed in it, then `auto_fix_columns` returns the text
unchanged, and applying it twice equals applying it once. -/
theorem c8_auto_fix_idempotent (closeMatch : CloseMatchFn) (sql : String) (schema : Schema)
    (hqual : ∀ tc ∈ qualifiedRefs sql,
      ((alookup (columnMapOf schema) (lowerS tc.1)).map
        (fun cols => cols.contains (lowerS tc.2))).getD true = true)
    (hbare : ∀ w ∈ wordRuns (toLowerL sql.data),
      sqlKeywordsList.contains w = true ∨
      ((columnMapOf schema).map Prod.fst).contains w = true ∨
      (columnMapOf schema).any (fun p => p.2.contains w) = true) :
    auto_fix_columns closeMatch sql schema = sql ∧
      auto_fix_columns closeMatch (auto_fix_columns closeMatch sql schema) schema =
        auto_fix_columns closeMatch sql schema := by
  have hafc : auto_fix_columns closeMatch sql schema =
      (wordRuns (toLowerL ((qualifiedRefs sql).foldl
          (qualifiedFixStep closeMatch (columnMapOf schema)) sql).data)).foldl
        (bareFixStep closeMatch (columnMapOf schema))
        ((qualifiedRefs sql).foldl (qualifiedFixStep closeMatch (columnMapOf schema)) sql) := rfl
  have hq : (qualifiedRefs sql).foldl (qualifiedFixStep closeMatch (columnMapOf schema)) sql
      = sql := by
    apply foldl_fixed
    intro tc htc
    have hh := hqual tc htc
    unfold qualifiedFixStep
    cases halo : alookup (columnMapOf schema) (lowerS tc.1) with
    | none => rfl
    | some cands =>
      rw [halo] at hh
      simp only [Option.map_some', Option.getD_some] at hh
      dsimp only
      rw [if_pos hh]
  have hb : (wordRuns (toLowerL sql.data)).foldl
      (bareFixStep closeMatch (columnMapOf schema)) sql = sql := by
    apply foldl_fixed
    intro w hw
    unfold bareFixStep
    rcases hbare w hw with h | h | h
    · have h12 : (sqlKeywordsList.contains w ||
          ((columnMapOf schema).map Prod.fst).contains w) = true := by
        simp
        exact Or.inl (by simpa using h)
      rw [if_pos h12]
    · have h12 : (sqlKeywordsList.contains w ||
          ((columnMapOf schema).map Prod.fst).contains w) = true := by
        simp
        exact Or.inr (by simpa using h)
      rw [if_pos h12]
    · by_cases h12 : (sqlKeywordsList.contains w ||
          ((columnMapOf schema).map Prod.fst).contains w) = true
      · rw [if_pos h12]
      · rw [if_neg h12, if_pos h]
  have h1 : auto_fix_columns closeMatch sql schema = sql := by
    rw [hafc, hq]
    exact hb
  exact ⟨h1, by rw [h1]; exact h1⟩

theorem c8_auto_fix_idempotent_witness :
    auto_fix_columns noMatch c8Sql c7Schema = c8Sql ∧
      auto_fix_columns noMatch (auto_fix_columns noMatch c8Sql c7Schema) c7Schema =
        auto_fix_columns noMatch c8Sql c7Schema :=
  c8_auto_fix_idempotent noMatch c8Sql c7Schema (by decide) (by decide)

/-- C9: the Generate step at attempt 2 produces exactly the Auto-Repair of the
most recently generated SQL against the cached schema, and is independent of
the generation collaborators: any environment with the same close-match oracle
produces the same node result. -/
theorem c9_attempt_two_uses_auto_repair (env : Env) (st : SQLCorrectionState)
    (h2 : st.attempt_number = 2) (hne : st.previous_sqls ≠ []) :
    (generate_sql_node env st).generated_sql =
      auto_fix_columns env.closeMatch (st.previous_sqls.getLast hne) st.filtered_schema ∧
      ∀ env2 : Env, env2.closeMatch = env.closeMatch →
        generate_sql_node env2 st = generate_sql_node env st := by
  have hlast : lastD st.previous_sqls "" = st.previous_sqls.getLast hne := by
    have hsome : st.previous_sqls.getLast? = some (st.previous_sqls.getLast hne) :=
      List.getLast?_eq_getLast _ hne
    have hrev : st.previous_sqls.getLast? = st.previous_sqls.reverse.head? :=
      List.getLast?_eq_head?_reverse
    unfold lastD
    cases hr : st.previous_sqls.reverse with
    | nil =>
      rw [hr] at hrev
      rw [hsome] at hrev
      simp at hrev
    | cons x xs =>
      rw [hr] at hrev
      rw [hsome] at hrev
      simp at hrev
      exact hrev.symm
  constructor
  · unfold generate_sql_node
    simp [h2, hlast]
  · intro env2 he
    unfold generate_sql_node
    simp [h2, he]

theorem c9_attempt_two_uses_auto_repair_witness :
    stC9.attempt_number = 2 ∧
    ((generate_sql_node envW stC9).generated_sql =
        auto_fix_columns envW.closeMatch (stC9.previous_sqls.getLast stC9_prev_ne)
          stC9.filtered_schema ∧
      ∀ env2 : Env, env2.closeMatch = envW.closeMatch →
        generate_sql_node env2 stC9 = generate_sql_node envW stC9) :=
  ⟨rfl, c9_attempt_two_uses_auto_repair envW stC9 rfl stC9_prev_ne⟩

/-- C10: validating any SQL text against an empty schema with the default
threshold 0.7 yields `is_valid = false`, the schema layer's no-schema penalty
capping the confidence at 0.6. -/
theorem c10_empty_schema_invalid (parserOracle : String → Option String)
    (sql : String) (q : String) :
    (CriticAgent.validate parserOracle (7/10) sql [] q).is_valid = false ∧
      (CriticAgent.validate parserOracle (7/10) sql [] q).confidence ≤ 3/5 := by
  have hsch : schemaCheck sql [] = ⟨false, ["No schema provided for validation"]⟩ := rfl
  have h4 : confC4 parserOracle sql [] ≤ 3/5 := by
    unfold confC4 confC3 confC2 confC1
    rw [hsch]
    simp only [LayerResult.valid, LayerResult.issues, List.length_cons, List.length_nil]
    simp only [qSub_eq, qMul_eq, Rat.mkRat_eq_div]
    split_ifs <;> first | exact ‹False›.elim | (push_cast; linarith)
  have hconf : max 0 (min (confC4 parserOracle sql []) 1) ≤ 3/5 :=
    max_le (by norm_num) (le_trans (min_le_left _ _) h4)
  refine ⟨?_, ?_⟩
  · rw [validate_is_valid_def]
    have hlt : ¬((7:ℚ)/10 ≤ max 0 (min (confC4 parserOracle sql []) 1)) := by linarith
    rw [decide_eq_false hlt, Bool.false_and]
  · rw [validate_confidence_def]
    exact hconf

end QueryPilot
